import Mathlib

/-!
Verification of the authentication/authorization core and order creation
of the event-management backend (`backend/auth.py`, `backend/main.py`,
`backend/models.py`, `backend/schemas.py`, `backend/routers/*.py`).

The relational store is modelled as in-memory lists of records; SQLAlchemy
`query(...).filter(col == v).first()` becomes `List.find?`; FastAPI
`HTTPException(status_code, detail)` becomes an `HTTPError` value returned
through `Except`. Clock instants and time deltas are seconds as `Nat`.
-/

namespace EventMgmt

/-! ## Credential Hasher

Modelled from the spec: the hasher itself is the external `passlib`
`CryptContext(schemes=["sha256_crypt"])`, whose implementation is not part
of the repository source; only the wrappers `verify_password` and
`get_password_hash` in `backend/auth.py` are. Per spec section 4.1 the hasher is a
salted one-way transform: hashing draws a fresh salt (passed here as an
explicit `salt` argument, standing for the external randomness), the digest
records the salt and a collision-free MAC of (salt, plaintext), and
verification recomputes the MAC under the digest salt. A digest that is
not a well-formed hasher output is `Digest.malformed`, and per spec
section 4.1 verification of such a digest returns false rather than raising. -/

/-- An idealised collision-free keyed digest of (salt, plaintext): in the
model the MAC is the pair itself, capturing exactly the functional
input/output contract (injectivity), not one-wayness. -/
def hashMac (salt : Nat) (p : String) : Nat × String := (salt, p)

/-- A stored password digest: either a well-formed salted hash or an
arbitrary malformed string. -/
inductive Digest where
  | wf (salt : Nat) (mac : Nat × String)
  | malformed (raw : String)
deriving DecidableEq

/-- `get_password_hash` in `backend/auth.py`: `pwd_context.hash(password)` with a
freshly drawn salt. -/
def get_password_hash (salt : Nat) (password : String) : Digest :=
  Digest.wf salt (hashMac salt password)

/-- `verify_password` in `backend/auth.py`: `pwd_context.verify(plain, hashed)`. -/
def verify_password (plain_password : String) (hashed_password : Digest) : Bool :=
  match hashed_password with
  | Digest.wf salt mac => mac == hashMac salt plain_password
  | Digest.malformed _ => false

/-! ## Token Codec (`backend/auth.py`)

A JWT is modelled abstractly: `Token.signed payload key` is a structurally
well-formed token signed with symmetric key `key`; `Token.junk` is any
string that does not decode as a JWT. `jose.jwt.decode` is modelled with
its documented semantics: it raises `JWTError` (here: returns `none`) on a
malformed token or a signature mismatch, and raises `ExpiredSignatureError`
when the embedded `exp` is strictly before the current time. -/

/-- The claims dict `{"user_id": ..., "role": ...}` placed in a token at login. -/
structure Claims where
  user_id : Nat
  role : String
deriving DecidableEq

/-- The decoded token payload: the original claims plus the `exp` instant
added by `create_access_token`. -/
structure Payload where
  claims : Claims
  exp : Nat
deriving DecidableEq

/-- A bearer token as received on the wire. -/
inductive Token where
  | signed (payload : Payload) (key : String)
  | junk (raw : String)
deriving DecidableEq

/-- `ACCESS_TOKEN_EXPIRE_MINUTES` default in `backend/auth.py`: `60 * 24`. -/
def ACCESS_TOKEN_EXPIRE_MINUTES : Nat := 60 * 24

/-- `create_access_token` in `backend/auth.py`: copies the claims, adds
`exp = now + expires_delta` (default `ACCESS_TOKEN_EXPIRE_MINUTES` minutes),
and signs with the server secret. -/
def create_access_token (secret : String) (now : Nat) (data : Claims)
    (expires_delta : Option Nat) : Token :=
  Token.signed
    { claims := data
      exp := now + (match expires_delta with
        | some d => d
        | none => ACCESS_TOKEN_EXPIRE_MINUTES * 60) }
    secret

/-- `verify_token` in `backend/auth.py`: `jwt.decode(token, SECRET_KEY, ...)`
returning the payload, or `None` on any `JWTError` (malformed token,
signature mismatch, or `exp` strictly before the current time). -/
def verify_token (secret : String) (now : Nat) (token : Token) : Option Payload :=
  match token with
  | Token.junk _ => none
  | Token.signed payload key =>
      if key = secret ∧ ¬ payload.exp < now then some payload else none

/-! ## Data model (`backend/models.py`) -/

/-- A `users` row. -/
structure User where
  id : Nat
  name : String
  email : String
  password_hash : Digest
  role : String
  created_at : Nat
deriving DecidableEq

/-- A `vendors` row. The `category` column is declared `nullable=False`,
but the code paths that auto-create a vendor profile never set it, so it is
carried as an `Option`. -/
structure Vendor where
  id : Nat
  user_id : Nat
  company_name : String
  category : Option String
  membership_status : String
  created_at : Nat
deriving DecidableEq

/-- An `items` row. The `price` column is a SQL float carrying a decimal
price; it is embedded as an exact rational. -/
structure Item where
  id : Nat
  vendor_id : Nat
  name : String
  description : String
  price : ℚ
  status : String
  created_at : Nat
deriving DecidableEq

/-- An `orders` row (the columns declared in `backend/models.py`). -/
structure Order where
  id : Nat
  user_id : Nat
  vendor_id : Nat
  total_amount : ℚ
  payment_status : String
  order_status : String
  created_at : Nat
deriving DecidableEq

/-- An `order_items` row. -/
structure OrderItem where
  id : Nat
  order_id : Nat
  item_id : Nat
  quantity : Nat
  price : ℚ
deriving DecidableEq

/-- The relational store: one list per table plus autoincrement counters. -/
structure DB where
  users : List User
  vendors : List Vendor
  items : List Item
  orders : List Order
  order_items : List OrderItem
  nextUserId : Nat
  nextVendorId : Nat
  nextOrderId : Nat
  nextOrderItemId : Nat
deriving DecidableEq

/-! ## Identity Resolver and Role Guards -/

/-- A FastAPI `HTTPException(status_code=..., detail=...)`. -/
structure HTTPError where
  status_code : Nat
  detail : String
deriving DecidableEq

/-- The `Authorization` header of a request: absent, present with the
`Bearer ` scheme and a token, or present without the `Bearer ` scheme. -/
inductive AuthHeader where
  | missing
  | bearer (token : Token)
  | malformed (value : String)
deriving DecidableEq

/-- `get_current_user` in `backend/routers/auth.py`: rejects a missing or
non-Bearer header with 401 Not authenticated, a token failing
`verify_token` with 401 Invalid token, then loads the user row whose `id`
equals the `user_id` claim and rejects with 401 User not found when no such
row exists; on success returns that freshly loaded row. -/
def get_current_user (secret : String) (now : Nat) (db : DB)
    (authorization : AuthHeader) : Except HTTPError User :=
  match authorization with
  | AuthHeader.missing => Except.error { status_code := 401, detail := "Not authenticated" }
  | AuthHeader.malformed _ => Except.error { status_code := 401, detail := "Not authenticated" }
  | AuthHeader.bearer token =>
    match verify_token secret now token with
    | none => Except.error { status_code := 401, detail := "Invalid token" }
    | some payload =>
      match db.users.find? (fun u => u.id == payload.claims.user_id) with
      | none => Except.error { status_code := 401, detail := "User not found" }
      | some user => Except.ok user

/-- `require_admin` in `backend/routers/admin.py`. -/
def require_admin (current_user : User) : Except HTTPError User :=
  if current_user.role ≠ "admin" then
    Except.error { status_code := 403, detail := "Admin access required" }
  else Except.ok current_user

/-- `require_user` in `backend/routers/user.py`: rejects any role outside
`["user", "admin"]`. -/
def require_user (current_user : User) : Except HTTPError User :=
  if current_user.role ∉ ["user", "admin"] then
    Except.error { status_code := 403, detail := "User access required" }
  else Except.ok current_user

/-- The literal `"'s Company"` used by the vendor-profile auto-create
(the apostrophe written by code point). -/
def companySuffix : String := String.singleton (Char.ofNat 39) ++ "s Company"

/-- The vendor profile row auto-created by `get_current_vendor` for a
vendor-role user with no profile. -/
def mkAutoVendor (now : Nat) (db : DB) (current_user : User) : Vendor :=
  { id := db.nextVendorId
    user_id := current_user.id
    company_name := current_user.name ++ companySuffix
    category := none
    membership_status := "active"
    created_at := now }

/-- `get_current_vendor` in `backend/routers/vendor.py`: rejects a non-vendor
role with 403, then loads the vendor profile by `user_id`; when none
exists it creates one (`company_name = name + "'s Company"`,
`membership_status = "active"`, no category) and commits it before
returning. Returns the possibly updated store together with the profile. -/
def get_current_vendor (now : Nat) (db : DB) (current_user : User) :
    Except HTTPError (DB × Vendor) :=
  if current_user.role ≠ "vendor" then
    Except.error { status_code := 403, detail := "Vendor access required" }
  else
    match db.vendors.find? (fun v => v.user_id == current_user.id) with
    | some vendor => Except.ok (db, vendor)
    | none =>
      let vendor : Vendor := mkAutoVendor now db current_user
      Except.ok
        ({ db with vendors := db.vendors ++ [vendor], nextVendorId := db.nextVendorId + 1 },
         vendor)

/-! ## Login (`backend/routers/auth.py`) -/

/-- The `UserLogin` request schema. -/
structure UserLogin where
  email : String
  password : String
deriving DecidableEq

/-- The `UserResponse` schema: the user row without its password hash. -/
structure UserResponse where
  id : Nat
  name : String
  email : String
  role : String
  created_at : Nat
deriving DecidableEq

/-- The `LoginResponse` schema. -/
structure LoginResponse where
  user : UserResponse
  token : Token
deriving DecidableEq

/-- `login` in `backend/routers/auth.py`: look the user up by email; when no
row matches or the password fails verification, fail with the one generic
401 Invalid credentials error; otherwise issue a token over
`{user_id, role}` with the default ttl and return the sanitised user. -/
def login (secret : String) (now : Nat) (db : DB) (data : UserLogin) :
    Except HTTPError LoginResponse :=
  match db.users.find? (fun u => u.email == data.email) with
  | none => Except.error { status_code := 401, detail := "Invalid credentials" }
  | some user =>
    if ¬ verify_password data.password user.password_hash then
      Except.error { status_code := 401, detail := "Invalid credentials" }
    else
      Except.ok
        { user :=
            { id := user.id, name := user.name, email := user.email
              role := user.role, created_at := user.created_at }
          token := create_access_token secret now { user_id := user.id, role := user.role } none }

/-! ## Startup (`backend/main.py`) -/

/-- The default admin row created by `lifespan` when absent. -/
def defaultAdminUser (id salt now : Nat) : User :=
  { id := id
    name := "Admin"
    email := "admin@admin.com"
    password_hash := get_password_hash salt "admin123"
    role := "admin"
    created_at := now }

/-- The startup half of `lifespan` in `backend/main.py`: query for a user with
email `admin@admin.com`; when none exists, insert the default admin row and
commit; otherwise leave the store untouched. -/
def lifespan (salt now : Nat) (db : DB) : DB :=
  match db.users.find? (fun u => u.email == "admin@admin.com") with
  | some _ => db
  | none =>
    { db with
        users := db.users ++ [defaultAdminUser db.nextUserId salt now]
        nextUserId := db.nextUserId + 1 }

/-! ## Order creation (`backend/routers/user.py`) -/

/-- The `OrderItemCreate` schema: an item id and a quantity. -/
structure OrderItemCreate where
  item_id : Nat
  quantity : Nat
deriving DecidableEq

/-- The `OrderCreate` schema as declared in `backend/schemas.py`: only a
vendor id and the line items. It has no `customer_name`, `customer_email`,
`customer_phone`, `address`, `city`, `state`, `pincode` or
`payment_method` field, although `create_order` reads all of those. -/
structure OrderCreate where
  vendor_id : Nat
  items : List OrderItemCreate
deriving DecidableEq

/-- How `create_order` terminates abnormally: an `HTTPException`, or a
Python `AttributeError` from reading a field that the `OrderCreate`
schema does not declare. -/
inductive OrderError where
  | http (e : HTTPError)
  | attributeError (field : String)
deriving DecidableEq

/-- The item-lookup loop at the top of `create_order`: walks the requested
line items in order, failing with the id of the first item not found in
the store, and otherwise accumulating `total += item.price * quantity` and
`items_data.append((item, quantity))`. -/
def create_order_loop (db : DB) (l : List OrderItemCreate) (total : ℚ)
    (items_data : List (Item × Nat)) : Except Nat (ℚ × List (Item × Nat)) :=
  match l with
  | [] => Except.ok (total, items_data)
  | d :: rest =>
    match db.items.find? (fun i => i.id == d.item_id) with
    | none => Except.error d.item_id
    | some item =>
      create_order_loop db rest (total + item.price * (d.quantity : ℚ))
        (items_data ++ [(item, d.quantity)])

/-- `create_order` in `backend/routers/user.py`: runs the lookup loop (a
missing item id raises 404 before any order row is written); the source
then evaluates `data.customer_name` while building the `Order` row, and
`OrderCreate` declares no such field (nor does the `Order` model declare
such a column), so every run that passes the loop raises `AttributeError`
and no order is ever created. -/
def create_order (db : DB) (_user : User) (data : OrderCreate) :
    Except OrderError (DB × Order) :=
  match create_order_loop db data.items 0 [] with
  | Except.error missingId =>
      Except.error (OrderError.http
        { status_code := 404, detail := "Item " ++ toString missingId ++ " not found" })
  | Except.ok _ => Except.error (OrderError.attributeError "customer_name")

/-! ## Named error values of the core taxonomy -/

/-- The resolver error for a missing or non-Bearer header. -/
def unauthenticatedErr : HTTPError := { status_code := 401, detail := "Not authenticated" }

/-- The resolver error for a token failing verification. -/
def invalidTokenErr : HTTPError := { status_code := 401, detail := "Invalid token" }

/-- The resolver error for valid claims with no matching stored user. -/
def principalNotFoundErr : HTTPError := { status_code := 401, detail := "User not found" }

/-- The admin guard error. -/
def forbiddenAdminErr : HTTPError := { status_code := 403, detail := "Admin access required" }

/-- The user guard error. -/
def forbiddenUserErr : HTTPError := { status_code := 403, detail := "User access required" }

/-- The vendor guard error. -/
def forbiddenVendorErr : HTTPError := { status_code := 403, detail := "Vendor access required" }

/-- The generic login failure error. -/
def invalidCredentialsErr : HTTPError := { status_code := 401, detail := "Invalid credentials" }

/-! ## Theorems -/

/-- Claim C6: verification succeeds on the digest of the same plaintext
under either salt, fails on the digest of a different plaintext, and two
hashes of one plaintext under distinct salts are distinct digests that
both verify. -/
theorem hash_verify_roundtrip (p q : String) (s₁ s₂ : Nat) :
    verify_password p (get_password_hash s₁ p) = true ∧
    (p ≠ q → verify_password p (get_password_hash s₁ q) = false) ∧
    (s₁ ≠ s₂ → get_password_hash s₁ p ≠ get_password_hash s₂ p) ∧
    verify_password p (get_password_hash s₂ p) = true := by
  refine ⟨?_, ?_, ?_, ?_⟩
  · simp [verify_password, get_password_hash, hashMac]
  · intro hpq
    simp only [verify_password, get_password_hash, hashMac]
    simp [Prod.ext_iff]
    intro h
    exact absurd h.symm hpq
  · intro hs hcontra
    simp only [get_password_hash, hashMac, Digest.wf.injEq] at hcontra
    exact hs hcontra.1
  · simp [verify_password, get_password_hash, hashMac]

/-- Witness for C6 at plaintexts `a`, `b` and salts 0, 1. -/
theorem hash_verify_roundtrip_witness :
    verify_password "a" (get_password_hash 0 "a") = true ∧
    verify_password "a" (get_password_hash 0 "b") = false ∧
    get_password_hash 0 "a" ≠ get_password_hash 1 "a" ∧
    verify_password "a" (get_password_hash 1 "a") = true := by
  have h := hash_verify_roundtrip "a" "b" 0 1
  exact ⟨h.1, h.2.1 (by decide), h.2.2.1 (by decide), h.2.2.2⟩

/-- Claim C7: for every plaintext and every malformed digest, password
verification returns false (it is a total function into Bool, so it never
raises). -/
theorem verify_malformed_digest_false (p raw : String) :
    verify_password p (Digest.malformed raw) = false := rfl

/-- Claim C4: a token issued over claims `c` with ttl `t` verifies to
exactly `c` (plus the `exp = now + t` instant) at any instant up to the
expiration, verifies to invalid at any instant strictly past the
expiration, and with ttl = 0 is invalid after any nonzero delay. -/
theorem issue_verify_expiry (secret : String) (c : Claims) (t now now₂ d : Nat) :
    (now₂ ≤ now + t →
      verify_token secret now₂ (create_access_token secret now c (some t)) =
        some { claims := c, exp := now + t }) ∧
    (now + t < now₂ →
      verify_token secret now₂ (create_access_token secret now c (some t)) = none) ∧
    (0 < d →
      verify_token secret (now + d) (create_access_token secret now c (some 0)) = none) := by
  refine ⟨?_, ?_, ?_⟩
  · intro h
    simp [verify_token, create_access_token, Nat.not_lt.mpr h]
  · intro h
    simp [verify_token, create_access_token, h]
  · intro h
    have hlt : now + 0 < now + d := by omega
    simp [verify_token, create_access_token, hlt]
    omega

/-- Witness for C4: a token with ttl 5 issued at instant 10 verifies at 12,
is invalid at 16, and a ttl-0 token issued at 10 is invalid at 11. -/
theorem issue_verify_expiry_witness :
    verify_token "k" 12 (create_access_token "k" 10 { user_id := 1, role := "user" } (some 5)) =
      some { claims := { user_id := 1, role := "user" }, exp := 15 } ∧
    verify_token "k" 16 (create_access_token "k" 10 { user_id := 1, role := "user" } (some 5)) =
      none ∧
    verify_token "k" 11 (create_access_token "k" 10 { user_id := 1, role := "user" } (some 0)) =
      none := by
  refine ⟨?_, ?_, ?_⟩
  · exact (issue_verify_expiry "k" { user_id := 1, role := "user" } 5 10 12 1).1 (by decide)
  · exact (issue_verify_expiry "k" { user_id := 1, role := "user" } 5 10 16 1).2.1 (by decide)
  · exact (issue_verify_expiry "k" { user_id := 1, role := "user" } 5 10 11 1).2.2 (by decide)

/-- Claim C5: a login whose email matches no stored user and a login whose
email matches but whose password fails verification produce one and the
same generic error value (same status code and same detail). -/
theorem login_generic_invalid_credentials (secret : String) (now : Nat) (db : DB)
    (data : UserLogin) :
    (db.users.find? (fun u => u.email == data.email) = none →
      login secret now db data = Except.error invalidCredentialsErr) ∧
    (∀ u, db.users.find? (fun u => u.email == data.email) = some u →
      verify_password data.password u.password_hash = false →
      login secret now db data = Except.error invalidCredentialsErr) := by
  constructor
  · intro h
    simp [login, h, invalidCredentialsErr]
  · intro u hu hpw
    simp [login, hu, hpw, invalidCredentialsErr]

/-! ## Concrete sample store used by the witnesses and counterexamples -/

/-- A stored digest for the password `secret1`. -/
def sampleHash : Digest := get_password_hash 7 "secret1"

/-- A stored user with role `user`. -/
def alice : User :=
  { id := 1, name := "Alice", email := "a@x.com", password_hash := sampleHash
    role := "user", created_at := 0 }

/-- A stored user with role `admin`. -/
def adam : User :=
  { id := 2, name := "Adam", email := "ad@x.com", password_hash := sampleHash
    role := "admin", created_at := 0 }

/-- A stored user with role `vendor`. -/
def vera : User :=
  { id := 3, name := "Vera", email := "v@x.com", password_hash := sampleHash
    role := "vendor", created_at := 0 }

/-- A sample store holding one user of each role and no admin-email row. -/
def sampleDB : DB :=
  { users := [alice, adam, vera], vendors := [], items := [], orders := []
    order_items := [], nextUserId := 4, nextVendorId := 1, nextOrderId := 1
    nextOrderItemId := 1 }

/-- The vendor profile of `vera`. -/
def veraProfile : Vendor :=
  { id := 1, user_id := 3, company_name := "VeraCo", category := some "Catering"
    membership_status := "active", created_at := 0 }

/-- A store in which `vera` has a vendor profile. -/
def dbWithProfile : DB :=
  { users := [alice, adam, vera], vendors := [veraProfile], items := [], orders := []
    order_items := [], nextUserId := 4, nextVendorId := 2, nextOrderId := 1
    nextOrderItemId := 1 }

/-- A vendor-role user with no vendor profile row. -/
def bob : User :=
  { id := 5, name := "Bob", email := "b@x.com", password_hash := Digest.malformed "x"
    role := "vendor", created_at := 0 }

/-- A store holding `bob` and no vendor profiles. -/
def dbNoProfile : DB :=
  { users := [bob], vendors := [], items := [], orders := [], order_items := []
    nextUserId := 6, nextVendorId := 1, nextOrderId := 1, nextOrderItemId := 1 }

/-- Witness for C5: unknown email and wrong password for a known email
both yield exactly `invalidCredentialsErr`. -/
theorem login_generic_invalid_credentials_witness :
    login "k" 0 sampleDB { email := "nobody@x.com", password := "secret1" } =
      Except.error invalidCredentialsErr ∧
    login "k" 0 sampleDB { email := "a@x.com", password := "wrong" } =
      Except.error invalidCredentialsErr := by
  constructor
  · exact (login_generic_invalid_credentials "k" 0 sampleDB
      { email := "nobody@x.com", password := "secret1" }).1 (by decide)
  · exact (login_generic_invalid_credentials "k" 0 sampleDB
      { email := "a@x.com", password := "wrong" }).2 alice (by decide) (by decide)

/-- Claim C8: the user guard accepts roles `user` and `admin` and rejects
`vendor`; the vendor guard rejects every non-`vendor` role, in particular
`admin`. -/
theorem role_guard_matrix (now : Nat) (db : DB) (u : User) :
    (u.role = "user" → require_user u = Except.ok u) ∧
    (u.role = "admin" → require_user u = Except.ok u) ∧
    (u.role = "vendor" → require_user u = Except.error forbiddenUserErr) ∧
    (u.role ≠ "vendor" → get_current_vendor now db u = Except.error forbiddenVendorErr) ∧
    (u.role = "admin" → get_current_vendor now db u = Except.error forbiddenVendorErr) := by
  refine ⟨?_, ?_, ?_, ?_, ?_⟩ <;> intro h <;>
    simp [require_user, get_current_vendor, h, forbiddenUserErr, forbiddenVendorErr]

/-- Witness for C8 at the three stored roles. -/
theorem role_guard_matrix_witness :
    require_user alice = Except.ok alice ∧
    require_user adam = Except.ok adam ∧
    require_user vera = Except.error forbiddenUserErr ∧
    get_current_vendor 0 sampleDB alice = Except.error forbiddenVendorErr ∧
    get_current_vendor 0 sampleDB adam = Except.error forbiddenVendorErr := by
  have h₁ := role_guard_matrix 0 sampleDB alice
  have h₂ := role_guard_matrix 0 sampleDB adam
  have h₃ := role_guard_matrix 0 sampleDB vera
  exact ⟨h₁.1 (by decide), h₂.2.1 (by decide), h₃.2.2.1 (by decide),
    h₁.2.2.2.1 (by decide), h₂.2.2.2.2 (by decide)⟩

/-- Claim C1: a request with a valid token resolves to the user row
fetched fresh from the store by the `user_id` claim, and each guard
outcome is determined by that row's `role` field alone — the token's
`role` claim (`p.claims.role`) is unconstrained here and occurs in no
conclusion, so a role change in the store is what every guard sees even
while an old token carrying the old role claim is still unexpired. -/
theorem resolver_uses_fresh_principal (secret : String) (now : Nat) (db : DB)
    (p : Payload) (u : User)
    (hexp : ¬ p.exp < now)
    (hfind : db.users.find? (fun w => w.id == p.claims.user_id) = some u) :
    get_current_user secret now db (AuthHeader.bearer (Token.signed p secret)) =
      Except.ok u ∧
    (require_admin u = Except.ok u ↔ u.role = "admin") ∧
    (require_user u = Except.ok u ↔ (u.role = "user" ∨ u.role = "admin")) ∧
    ((∃ r, get_current_vendor now db u = Except.ok r) ↔ u.role = "vendor") := by
  refine ⟨?_, ?_, ?_, ?_⟩
  · simp [get_current_user, verify_token, hexp, hfind]
  · by_cases h : u.role = "admin" <;> simp [require_admin, h]
  · by_cases h₁ : u.role = "user"
    · simp [require_user, h₁]
    · by_cases h₂ : u.role = "admin" <;> simp [require_user, h₁, h₂]
  · constructor
    · intro hex
      obtain ⟨r, hr⟩ := hex
      by_cases h : u.role = "vendor"
      · exact h
      · simp [get_current_vendor, h] at hr
    · intro h
      cases hf : db.vendors.find? (fun v => v.user_id == u.id) with
      | some v => exact ⟨(db, v), by simp [get_current_vendor, h, hf]⟩
      | none =>
        refine ⟨({ db with
          vendors := db.vendors ++ [mkAutoVendor now db u]
          nextVendorId := db.nextVendorId + 1 }, mkAutoVendor now db u), ?_⟩
        simp [get_current_vendor, h, hf]

/-- A still-unexpired payload whose embedded role claim (`admin`) is stale
relative to the stored role of user 1 (`user`). -/
def staleTok : Payload := { claims := { user_id := 1, role := "admin" }, exp := 100 }

/-- Witness for C1: resolving `staleTok` returns the stored `alice` row,
and the guards decide on the stored role `user`, not the stale `admin`
claim inside the token. -/
theorem resolver_uses_fresh_principal_witness :
    get_current_user "k" 0 sampleDB (AuthHeader.bearer (Token.signed staleTok "k")) =
      Except.ok alice ∧
    (require_admin alice = Except.ok alice ↔ alice.role = "admin") ∧
    (require_user alice = Except.ok alice ↔ (alice.role = "user" ∨ alice.role = "admin")) ∧
    ((∃ r, get_current_vendor 0 sampleDB alice = Except.ok r) ↔ alice.role = "vendor") :=
  resolver_uses_fresh_principal "k" 0 sampleDB staleTok alice (by decide) (by decide)

/-- Counterexample to C2 as stated: Unauthenticated and InvalidToken (and
PrincipalNotFound) are distinct error kinds, produced here by three
concrete requests, yet they share the response status code 401. -/
theorem resolver_codes_not_distinct :
    get_current_user "k" 1 sampleDB AuthHeader.missing = Except.error unauthenticatedErr ∧
    get_current_user "k" 1 sampleDB
        (AuthHeader.bearer (Token.signed { claims := { user_id := 1, role := "user" }, exp := 0 } "k")) =
      Except.error invalidTokenErr ∧
    get_current_user "k" 1 sampleDB
        (AuthHeader.bearer (Token.signed { claims := { user_id := 99, role := "user" }, exp := 9 } "k")) =
      Except.error principalNotFoundErr ∧
    unauthenticatedErr ≠ invalidTokenErr ∧
    unauthenticatedErr.status_code = invalidTokenErr.status_code ∧
    invalidTokenErr.status_code = principalNotFoundErr.status_code := by
  refine ⟨rfl, rfl, rfl, by decide, rfl, rfl⟩

/-- Claim C2 as amended: each of the four core error kinds carries its own
detail message and Forbidden carries its own status code 403, but the
three resolver kinds (Unauthenticated, InvalidToken, PrincipalNotFound)
all share status code 401. -/
theorem error_kind_code_mapping (secret : String) (now : Nat) (db : DB) (s : String)
    (tok : Token) (u : User) :
    get_current_user secret now db AuthHeader.missing = Except.error unauthenticatedErr ∧
    get_current_user secret now db (AuthHeader.malformed s) = Except.error unauthenticatedErr ∧
    (verify_token secret now tok = none →
      get_current_user secret now db (AuthHeader.bearer tok) = Except.error invalidTokenErr) ∧
    (∀ p, verify_token secret now tok = some p →
      db.users.find? (fun w => w.id == p.claims.user_id) = none →
      get_current_user secret now db (AuthHeader.bearer tok) = Except.error principalNotFoundErr) ∧
    (u.role ≠ "admin" → require_admin u = Except.error forbiddenAdminErr) ∧
    unauthenticatedErr.status_code = 401 ∧
    invalidTokenErr.status_code = 401 ∧
    principalNotFoundErr.status_code = 401 ∧
    forbiddenAdminErr.status_code = 403 ∧
    unauthenticatedErr.detail ≠ invalidTokenErr.detail ∧
    unauthenticatedErr.detail ≠ principalNotFoundErr.detail ∧
    invalidTokenErr.detail ≠ principalNotFoundErr.detail := by
  refine ⟨rfl, rfl, ?_, ?_, ?_, rfl, rfl, rfl, rfl, by decide, by decide, by decide⟩
  · intro h
    simp [get_current_user, h, invalidTokenErr]
  · intro p hp hf
    simp [get_current_user, hp, hf, principalNotFoundErr]
  · intro h
    simp [require_admin, h, forbiddenAdminErr]

/-- Witness for C2 (amended) at concrete requests of each failure kind. -/
theorem error_kind_code_mapping_witness :
    get_current_user "k" 1 sampleDB AuthHeader.missing = Except.error unauthenticatedErr ∧
    get_current_user "k" 1 sampleDB (AuthHeader.malformed "Basic x") =
      Except.error unauthenticatedErr ∧
    get_current_user "k" 1 sampleDB (AuthHeader.bearer (Token.junk "zzz")) =
      Except.error invalidTokenErr ∧
    get_current_user "k" 1 sampleDB
        (AuthHeader.bearer (Token.signed { claims := { user_id := 99, role := "user" }, exp := 9 } "k")) =
      Except.error principalNotFoundErr ∧
    require_admin vera = Except.error forbiddenAdminErr := by
  have h₁ := error_kind_code_mapping "k" 1 sampleDB "Basic x" (Token.junk "zzz") vera
  have h₂ := error_kind_code_mapping "k" 1 sampleDB "Basic x"
    (Token.signed { claims := { user_id := 99, role := "user" }, exp := 9 } "k") vera
  exact ⟨h₁.1, h₁.2.1, h₁.2.2.1 rfl,
    h₂.2.2.2.1 { claims := { user_id := 99, role := "user" }, exp := 9 } rfl (by decide),
    h₁.2.2.2.2.1 (by decide)⟩

/-- Counterexample to C3 as stated: running the vendor guard on `bob`
(role `vendor`, no profile row) returns a store that differs from the
input store — the guard itself created a `vendors` record. -/
theorem vendor_guard_mutates_store :
    get_current_vendor 0 dbNoProfile bob =
      Except.ok ({ dbNoProfile with
        vendors := [mkAutoVendor 0 dbNoProfile bob]
        nextVendorId := 2 }, mkAutoVendor 0 dbNoProfile bob) ∧
    ({ dbNoProfile with
        vendors := [mkAutoVendor 0 dbNoProfile bob]
        nextVendorId := 2 } : DB) ≠ dbNoProfile := by
  exact ⟨rfl, by decide⟩

/-- Claim C3 as amended: the admin and user guards are pure predicates
(pass-through or Forbidden, never touching the store); the vendor guard
leaves the store unchanged when it rejects or when a profile row exists,
but auto-creates a vendor profile row for a vendor-role principal that
lacks one. -/
theorem guard_frame_conditions (now : Nat) (db : DB) (u : User) (v : Vendor) :
    (require_admin u = Except.ok u ∨ require_admin u = Except.error forbiddenAdminErr) ∧
    (require_user u = Except.ok u ∨ require_user u = Except.error forbiddenUserErr) ∧
    (u.role ≠ "vendor" → get_current_vendor now db u = Except.error forbiddenVendorErr) ∧
    (u.role = "vendor" → db.vendors.find? (fun w => w.user_id == u.id) = some v →
      get_current_vendor now db u = Except.ok (db, v)) ∧
    (u.role = "vendor" → db.vendors.find? (fun w => w.user_id == u.id) = none →
      get_current_vendor now db u =
        Except.ok ({ db with
          vendors := db.vendors ++ [mkAutoVendor now db u]
          nextVendorId := db.nextVendorId + 1 }, mkAutoVendor now db u)) := by
  refine ⟨?_, ?_, ?_, ?_, ?_⟩
  · by_cases h : u.role = "admin"
    · left
      simp [require_admin, h]
    · right
      simp [require_admin, h, forbiddenAdminErr]
  · by_cases h : u.role ∈ ["user", "admin"]
    · left
      simp [require_user, h]
    · right
      simp [require_user, h, forbiddenUserErr]
  · intro h
    simp [get_current_vendor, h, forbiddenVendorErr]
  · intro h hf
    simp [get_current_vendor, h, hf]
  · intro h hf
    simp [get_current_vendor, h, hf]

/-- Witness for C3 (amended): the pure guards on `alice`, the unchanged
store when the profile of `vera` exists, the rejection of `alice`, and
the auto-created row for `bob`. -/
theorem guard_frame_conditions_witness :
    (require_admin alice = Except.ok alice ∨
      require_admin alice = Except.error forbiddenAdminErr) ∧
    (require_user alice = Except.ok alice ∨
      require_user alice = Except.error forbiddenUserErr) ∧
    get_current_vendor 0 dbWithProfile alice = Except.error forbiddenVendorErr ∧
    get_current_vendor 0 dbWithProfile vera = Except.ok (dbWithProfile, veraProfile) ∧
    get_current_vendor 0 dbNoProfile bob =
      Except.ok ({ dbNoProfile with
        vendors := dbNoProfile.vendors ++ [mkAutoVendor 0 dbNoProfile bob]
        nextVendorId := dbNoProfile.nextVendorId + 1 }, mkAutoVendor 0 dbNoProfile bob) := by
  have h₁ := guard_frame_conditions 0 dbWithProfile alice veraProfile
  have h₂ := guard_frame_conditions 0 dbWithProfile vera veraProfile
  have h₃ := guard_frame_conditions 0 dbNoProfile bob veraProfile
  exact ⟨h₁.1, h₁.2.1, h₁.2.2.1 (by decide),
    h₂.2.2.2.1 (by decide) (by decide), h₃.2.2.2.2 (by decide) (by decide)⟩

/-- Claim C9: startup inserts the default admin row (name `Admin`, role
`admin`, hash of `admin123`) exactly when no user with email
`admin@admin.com` exists, leaves the store untouched otherwise, is
idempotent, and preserves email uniqueness. -/
theorem lifespan_admin_idempotent (salt now : Nat) (db : DB) :
    (db.users.find? (fun u => u.email == "admin@admin.com") = none →
      lifespan salt now db =
        { db with
          users := db.users ++ [defaultAdminUser db.nextUserId salt now]
          nextUserId := db.nextUserId + 1 }) ∧
    (∀ a, db.users.find? (fun u => u.email == "admin@admin.com") = some a →
      lifespan salt now db = db) ∧
    (defaultAdminUser db.nextUserId salt now).role = "admin" ∧
    (defaultAdminUser db.nextUserId salt now).name = "Admin" ∧
    (defaultAdminUser db.nextUserId salt now).password_hash = get_password_hash salt "admin123" ∧
    lifespan salt now (lifespan salt now db) = lifespan salt now db ∧
    ((db.users.map User.email).Nodup → ((lifespan salt now db).users.map User.email).Nodup) := by
  refine ⟨?_, ?_, rfl, rfl, rfl, ?_, ?_⟩
  · intro h
    simp [lifespan, h]
  · intro a ha
    simp [lifespan, ha]
  · cases hf : db.users.find? (fun u => u.email == "admin@admin.com") with
    | some a => simp [lifespan, hf]
    | none =>
      have hadmin : ((db.users ++ [defaultAdminUser db.nextUserId salt now]).find?
          (fun u => u.email == "admin@admin.com")) =
          some (defaultAdminUser db.nextUserId salt now) := by
        rw [List.find?_append, hf]
        simp [defaultAdminUser]
      simp [lifespan, hf, hadmin]
  · intro hn
    cases hf : db.users.find? (fun u => u.email == "admin@admin.com") with
    | some a => simpa [lifespan, hf] using hn
    | none =>
      have hne : ∀ u ∈ db.users, u.email ≠ "admin@admin.com" := by
        intro u hu
        have := List.find?_eq_none.mp hf u hu
        simpa using this
      simp only [lifespan, hf]
      rw [List.map_append]
      rw [List.nodup_append]
      refine ⟨hn, by simp, ?_⟩
      intro e he hecontra
      simp only [List.map_cons, List.map_nil, List.mem_singleton, defaultAdminUser] at hecontra
      obtain ⟨u, hu, hue⟩ := List.mem_map.mp he
      exact hne u hu (by rw [hue, hecontra])

/-- Witness for C9 at `sampleDB` (which has no admin-email row). -/
theorem lifespan_admin_idempotent_witness :
    lifespan 7 0 sampleDB =
      { sampleDB with
        users := sampleDB.users ++ [defaultAdminUser sampleDB.nextUserId 7 0]
        nextUserId := sampleDB.nextUserId + 1 } ∧
    lifespan 7 0 (lifespan 7 0 sampleDB) = lifespan 7 0 sampleDB ∧
    ((lifespan 7 0 sampleDB).users.map User.email).Nodup := by
  have h := lifespan_admin_idempotent 7 0 sampleDB
  exact ⟨h.1 (by decide), h.2.2.2.2.2.1, h.2.2.2.2.2.2 (by decide)⟩

/-! ## Order creation sample data -/

/-- A stored item priced 10. -/
def cakeItem : Item :=
  { id := 1, vendor_id := 1, name := "Cake", description := "", price := 10
    status := "approved", created_at := 0 }

/-- A store holding only `cakeItem`. -/
def orderDB : DB :=
  { users := [alice], vendors := [], items := [cakeItem], orders := [], order_items := []
    nextUserId := 2, nextVendorId := 1, nextOrderId := 1, nextOrderItemId := 1 }

/-- Claim C10, evaluated at its failing input: the lookup loop does
compute the intended total (10 × 2 = 20 for two units of `cakeItem`) and
a missing item id does fail with 404 before any order exists, but the
order-construction step then reads `customer_name`, a field the
`OrderCreate` schema does not declare, so the request errors out and no
order row is ever created. -/
theorem create_order_attribute_error :
    create_order orderDB alice { vendor_id := 1, items := [{ item_id := 1, quantity := 2 }] } =
      Except.error (OrderError.attributeError "customer_name") ∧
    create_order_loop orderDB [{ item_id := 1, quantity := 2 }] 0 [] =
      Except.ok (20, [(cakeItem, 2)]) ∧
    create_order orderDB alice { vendor_id := 1, items := [{ item_id := 99, quantity := 1 }] } =
      Except.error (OrderError.http { status_code := 404, detail := "Item 99 not found" }) := by
  refine ⟨rfl, ?_, rfl⟩
  norm_num [create_order_loop, orderDB, cakeItem]

end EventMgmt
